import Mathlib

/-!
Verification of the Togather-Watch synchronization engine.

The definitions below are a shallow embedding of the `useSyncLogic` hook
(src/unnamed/part_006): React `useState`/`useRef` cells become fields of a
`World` record, each handler becomes a pure function `World → Res` returning
the updated world together with the protocol messages it sends and the
timers it arms.  JavaScript numbers used as media times are modelled as
exact rationals; nullable identity strings as `Option String`.
-/

namespace CineSync

/-- Session states of the sync state machine (`SyncState` in part_006,
line 20); `waitingAck` stands for the source's `waiting-ack`. -/
inductive SyncState
  | idle
  | requesting
  | waitingAck
  | syncing
  | playing
  | paused
deriving DecidableEq

/-- The `type` field of a `client-sync-request` payload (`play` or `seek`). -/
inductive ReqType
  | play
  | seek
deriving DecidableEq

/-- The `pendingSync` ref (part_006 line 50): `{ time, initiator }`.  The
initiator is the non-null string `myUserId || 'self'`. -/
structure Pending where
  time : ℚ
  initiator : String
deriving DecidableEq

/-- The media element driven through `playerRef`: playing flag, current
time, playback rate and HTMLMediaElement `readyState`. -/
structure Player where
  playing : Bool
  currentTime : ℚ
  playbackRate : ℚ
  readyState : ℕ
deriving DecidableEq

/-- A debounced local intent stored in `debounceTimer` (part_006
lines 399-428): the callback that will run when the 200 ms window ends. -/
inductive DebAction
  | playA
  | pauseA
  | seekA (time : ℚ)
deriving DecidableEq

/-- All mutable state of one peer: the hook's `useState` values
(`syncState`, `url`, `isPlaying`), its refs (`syncLock`, `isRemoteAction`,
`pendingSync`, `debounceTimer`), the `myUserId` prop, and the attached
media element (`attached = false` models `getInternalPlayer()` returning
null). -/
structure World where
  syncState : SyncState
  url : String
  isPlaying : Bool
  syncLock : Bool
  isRemoteAction : Bool
  pendingSync : Option Pending
  debounce : Option DebAction
  myUserId : Option String
  attached : Bool
  player : Player
deriving DecidableEq

/-- Channel messages sent with `trigger` (the `client-` event vocabulary of
part_006). -/
inductive Msg
  | syncRequest (ty : ReqType) (time : ℚ) (initiator : Option String)
  | syncAck (time : ℚ) (responder : Option String)
  | syncGo (time : ℚ)
  | pauseMsg (time : ℚ)
  | urlMsg (u : String)
  | stateRequest (requesterId : Option String)
  | stateResponse (u : String) (isPlaying : Bool) (time : ℚ)
      (responderId : Option String) (targetId : Option String)
  | timeCheck (time : ℚ) (sender : Option String)
deriving DecidableEq

/-- Timers armed with `setTimeout`.  `ackTimeout` records the `syncState`
value captured by the closure of part_006 lines 111-116: `setSyncState`
does not mutate the render-scope binding the closure reads, so the
captured value is the state from before the transition to `requesting`. -/
inductive Timer
  | ackTimeout (captured : SyncState) (ms : ℕ)
  | checkReady (ty : ReqType) (time : ℚ) (ms : ℕ)
  | softReset (ms : ℕ)
  | hardRelease (ms : ℕ)
deriving DecidableEq

/-- Result of running one handler: the new world, the messages sent via
`trigger` (in order), and the timers armed. -/
structure Res where
  world : World
  sent : List Msg
  armed : List Timer
deriving DecidableEq

-- Sync thresholds (part_006 lines 13-15).
def MICRO_DRIFT_THRESHOLD : ℚ := 3/10
def SOFT_SYNC_THRESHOLD : ℚ := 3/2
def HARD_SYNC_THRESHOLD : ℚ := 3/2

/-- `readyState >= HAVE_FUTURE_DATA` threshold (part_006 line 9). -/
def HAVE_FUTURE_DATA : ℕ := 3

/-- Fallback initiator id used when `myUserId` is null (`myUserId || 'self'`,
part_006 lines 102 and 149). -/
def selfId : String := "self"

/-- `getCurrentTime` (part_006 lines 64-69): the player's time, or 0 when
no player is attached. -/
def getCurrentTime (w : World) : ℚ :=
  if w.attached then w.player.currentTime else 0

/-- `seekTo` (part_006 lines 72-76): move the playhead when a player is
attached, otherwise do nothing. -/
def seekTo (w : World) (t : ℚ) : World :=
  if w.attached then { w with player := { w.player with currentTime := t } } else w

/-- `isPlayerReady` (part_006 lines 79-86): `readyState >= 3`, with a
`true` fallback when no media element is exposed. -/
def isPlayerReady (w : World) : Bool :=
  if w.attached then decide (HAVE_FUTURE_DATA ≤ w.player.readyState) else true

/-- `executePlay` (part_006 lines 159-169): play the media element, set
`isPlaying`, enter `playing`, release the lock and clear `pendingSync`. -/
def executePlay (w : World) : Res :=
  ⟨{ w with
      player := if w.attached then { w.player with playing := true } else w.player,
      isPlaying := true, syncState := .playing,
      syncLock := false, pendingSync := none }, [], []⟩

/-- `requestPlay` (part_006 lines 91-117): drop if locked; otherwise take
the lock, enter `requesting`, record the pending target, broadcast
`sync-request{play}` and arm the 3000 ms ack timeout whose closure captures
the pre-transition `syncState`. -/
def requestPlay (w : World) : Res :=
  if w.syncLock then ⟨w, [], []⟩
  else
    ⟨{ w with
        syncLock := true, syncState := .requesting,
        pendingSync := some ⟨getCurrentTime w, w.myUserId.getD selfId⟩ },
      [.syncRequest .play (getCurrentTime w) w.myUserId],
      [.ackTimeout w.syncState 3000]⟩

/-- Firing of the ack timeout (part_006 lines 111-116): the closure tests
the captured `syncState` value and calls `executePlay` only when it reads
`requesting` or `waiting-ack`. -/
def fireAckTimeout (captured : SyncState) (w : World) : Res :=
  if captured = .requesting ∨ captured = .waitingAck then executePlay w
  else ⟨w, [], []⟩

/-- `requestPause` (part_006 lines 120-132): consume the remote-echo flag
if set, otherwise commit pause locally and broadcast `pause{time}`. -/
def requestPause (w : World) : Res :=
  if w.isRemoteAction then ⟨{ w with isRemoteAction := false }, [], []⟩
  else
    ⟨{ w with isPlaying := false, syncState := .paused },
      [.pauseMsg (getCurrentTime w)], []⟩

/-- `requestSeek` (part_006 lines 135-156): drop if locked; consume the
remote-echo flag if set; otherwise take the lock, enter `syncing`, record
the pending target and broadcast `sync-request{seek}`. -/
def requestSeek (w : World) (time : ℚ) : Res :=
  if w.syncLock then ⟨w, [], []⟩
  else if w.isRemoteAction then ⟨{ w with isRemoteAction := false }, [], []⟩
  else
    ⟨{ w with
        syncLock := true, syncState := .syncing,
        pendingSync := some ⟨time, w.myUserId.getD selfId⟩ },
      [.syncRequest .seek time w.myUserId], []⟩

/-- `handleUrlChange` (part_006 lines 172-178): set the new url, clear
`isPlaying`, reset the session to `idle` and broadcast `url{newUrl}`.  The
source touches neither `syncLock` nor the playhead. -/
def handleUrlChange (w : World) (newUrl : String) : Res :=
  ⟨{ w with url := newUrl, isPlaying := false, syncState := .idle },
    [.urlMsg newUrl], []⟩

/-- `onSyncRequest` (part_006 lines 191-235): self-filter on `initiator`,
drop while locked; otherwise take the lock, enter `syncing`, set the
remote-echo flag, and — when a player is attached — pause, seek to the
requested time and arm the first `checkReady` poll after 100 ms. -/
def onSyncRequest (w : World) (ty : ReqType) (time : ℚ) (ini : Option String) : Res :=
  if ini = w.myUserId then ⟨w, [], []⟩
  else if w.syncLock then ⟨w, [], []⟩
  else if w.attached then
    ⟨seekTo { w with
        syncLock := true, syncState := .syncing, isRemoteAction := true,
        player := { w.player with playing := false } } time,
      [], [.checkReady ty time 100]⟩
  else
    ⟨{ w with syncLock := true, syncState := .syncing, isRemoteAction := true }, [], []⟩

/-- Firing of the `checkReady` poll (part_006 lines 213-230): when ready,
send `sync-ack`; for a `play` request stay locked in `waiting-ack`, for a
`seek` request release the lock and rest in `paused`; when not ready,
re-arm the poll after 50 ms. -/
def fireCheckReady (ty : ReqType) (time : ℚ) (w : World) : Res :=
  if isPlayerReady w then
    if ty = .play then
      ⟨{ w with syncState := .waitingAck }, [.syncAck time w.myUserId], []⟩
    else
      ⟨{ w with syncLock := false, syncState := .paused }, [.syncAck time w.myUserId], []⟩
  else ⟨w, [], [.checkReady ty time 50]⟩

/-- `onSyncAck` (part_006 lines 238-249): self-filter on `responder`; when
a pending sync exists, broadcast `sync-go{pending.time}` and `executePlay`;
otherwise drop. -/
def onSyncAck (w : World) (_time : ℚ) (responder : Option String) : Res :=
  if responder = w.myUserId then ⟨w, [], []⟩
  else
    match w.pendingSync with
    | some p =>
        ⟨(executePlay w).world, .syncGo p.time :: (executePlay w).sent, (executePlay w).armed⟩
    | none => ⟨w, [], []⟩

/-- `onSyncGo` (part_006 lines 252-255): unconditionally `executePlay`; the
handler has no self-filter and no state guard. -/
def onSyncGo (w : World) (_time : ℚ) : Res := executePlay w

/-- `onPause` (part_006 lines 258-265): mark the remote-echo flag, pause
the media element and rest in `paused`. -/
def onPause (w : World) (_time : ℚ) : Res :=
  ⟨{ w with
      isRemoteAction := true,
      player := if w.attached then { w.player with playing := false } else w.player,
      isPlaying := false, syncState := .paused }, [], []⟩

/-- `onUrl` (part_006 lines 268-273): apply the url reset locally without
re-broadcasting; `syncLock` and the playhead are untouched. -/
def onUrl (w : World) (u : String) : Res :=
  ⟨{ w with url := u, isPlaying := false, syncState := .idle }, [], []⟩

/-- `onStateRequest` (part_006 lines 276-289): self-filter on
`requesterId`, then answer with the full current state addressed to the
requester. -/
def onStateRequest (w : World) (requesterId : Option String) : Res :=
  if requesterId = w.myUserId then ⟨w, [], []⟩
  else
    ⟨w, [.stateResponse w.url w.isPlaying (getCurrentTime w) w.myUserId requesterId], []⟩

/-- `onStateResponse` (part_006 lines 292-306): drop responses not
addressed to us; adopt the url when truthy and different; seek when the
reported time is positive; adopt the responder's playing flag and enter
`playing`/`paused` accordingly.  No lock check anywhere. -/
def onStateResponse (w : World) (u : String) (ip : Bool) (time : ℚ)
    (_responderId : Option String) (targetId : Option String) : Res :=
  if targetId ≠ w.myUserId then ⟨w, [], []⟩
  else
    ⟨{ (if 0 < time then
          seekTo (if u ≠ "" ∧ u ≠ w.url then { w with url := u } else w) time
        else (if u ≠ "" ∧ u ≠ w.url then { w with url := u } else w)) with
        isPlaying := ip, syncState := if ip then .playing else .paused }, [], []⟩

/-- `onTimeCheck` (part_006 lines 343-377): self-filter, drop while
locked; ignore `|Δ| < 0.3`; above `1.5` take the lock, set the remote-echo
flag, hard seek to the remote time and arm the 500 ms lock release; in the
remaining band nudge the playback rate (1.05 when the remote is ahead,
0.95 when behind) and arm the 1500 ms rate reset. -/
def onTimeCheck (w : World) (time : ℚ) (sender : Option String) : Res :=
  if sender = w.myUserId then ⟨w, [], []⟩
  else if w.syncLock then ⟨w, [], []⟩
  else if |time - getCurrentTime w| < MICRO_DRIFT_THRESHOLD then ⟨w, [], []⟩
  else if HARD_SYNC_THRESHOLD < |time - getCurrentTime w| then
    ⟨seekTo { w with syncLock := true, isRemoteAction := true } time,
      [], [.hardRelease 500]⟩
  else if MICRO_DRIFT_THRESHOLD < |time - getCurrentTime w| then
    if w.attached then
      ⟨{ w with player := { w.player with
          playbackRate := if getCurrentTime w < time then 21/20 else 19/20 } },
        [], [.softReset 1500]⟩
    else ⟨w, [], []⟩
  else ⟨w, [], []⟩

/-- The drift-correction effect (part_006 lines 333-385) binds
`onTimeCheck` only while `syncState === 'playing'`; otherwise the message
is not delivered to the handler at all. -/
def dispatchTimeCheck (w : World) (time : ℚ) (sender : Option String) : Res :=
  if w.syncState = .playing then onTimeCheck w time sender else ⟨w, [], []⟩

/-- Firing of the soft-sync reset timer (part_006 lines 372-374): restore
`playbackRate = 1.0` on the captured player. -/
def fireSoftReset (w : World) : Res :=
  ⟨{ w with player := if w.attached then { w.player with playbackRate := 1 } else w.player },
    [], []⟩

/-- Firing of the hard-sync settle timer (part_006 line 363): release the
lock. -/
def fireHardRelease (w : World) : Res :=
  ⟨{ w with syncLock := false }, [], []⟩

/-- `handlePlayerPlay` (part_006 lines 389-403): consume the remote-echo
flag, or drop while locked, or (re)arm the debounced `requestPlay`. -/
def handlePlayerPlay (w : World) : Res :=
  if w.isRemoteAction then ⟨{ w with isRemoteAction := false }, [], []⟩
  else if w.syncLock then ⟨w, [], []⟩
  else ⟨{ w with debounce := some .playA }, [], []⟩

/-- `handlePlayerPause` (part_006 lines 405-416). -/
def handlePlayerPause (w : World) : Res :=
  if w.isRemoteAction then ⟨{ w with isRemoteAction := false }, [], []⟩
  else if w.syncLock then ⟨w, [], []⟩
  else ⟨{ w with debounce := some .pauseA }, [], []⟩

/-- `handlePlayerSeek` (part_006 lines 418-429). -/
def handlePlayerSeek (w : World) (time : ℚ) : Res :=
  if w.isRemoteAction then ⟨{ w with isRemoteAction := false }, [], []⟩
  else if w.syncLock then ⟨w, [], []⟩
  else ⟨{ w with debounce := some (.seekA time) }, [], []⟩

/-- Firing of the debounce window (part_006 lines 400-428): run the stored
intent. -/
def fireDebounce (w : World) : Res :=
  match w.debounce with
  | some .playA => requestPlay { w with debounce := none }
  | some .pauseA => requestPause { w with debounce := none }
  | some (.seekA t) => requestSeek { w with debounce := none } t
  | none => ⟨w, [], []⟩

/-- The bootstrap broadcast sent when the bind effect first runs on a
connected channel (part_006 lines 317-318). -/
def onConnect (w : World) : Res :=
  ⟨w, [.stateRequest w.myUserId], []⟩

/-- One atomic turn of the single-threaded engine: a local entry point, an
inbound message handler, or a timer callback, each running to completion. -/
inductive Act
  | requestPlayA
  | requestPauseA
  | requestSeekA (t : ℚ)
  | handleUrlChangeA (u : String)
  | onSyncRequestA (ty : ReqType) (t : ℚ) (ini : Option String)
  | onSyncAckA (t : ℚ) (resp : Option String)
  | onSyncGoA (t : ℚ)
  | onPauseA (t : ℚ)
  | onUrlA (u : String)
  | onStateRequestA (rid : Option String)
  | onStateResponseA (u : String) (ip : Bool) (t : ℚ)
      (rid : Option String) (tid : Option String)
  | timeCheckA (t : ℚ) (sender : Option String)
  | playerPlayA
  | playerPauseA
  | playerSeekA (t : ℚ)
  | debounceA
  | ackTimeoutA (captured : SyncState)
  | checkReadyA (ty : ReqType) (t : ℚ)
  | softResetA
  | hardReleaseA
  | connectA
deriving DecidableEq

/-- Dispatch of one atomic turn to the corresponding embedded handler. -/
def run (a : Act) (w : World) : Res :=
  match a with
  | .requestPlayA => requestPlay w
  | .requestPauseA => requestPause w
  | .requestSeekA t => requestSeek w t
  | .handleUrlChangeA u => handleUrlChange w u
  | .onSyncRequestA ty t ini => onSyncRequest w ty t ini
  | .onSyncAckA t resp => onSyncAck w t resp
  | .onSyncGoA t => onSyncGo w t
  | .onPauseA t => onPause w t
  | .onUrlA u => onUrl w u
  | .onStateRequestA rid => onStateRequest w rid
  | .onStateResponseA u ip t rid tid => onStateResponse w u ip t rid tid
  | .timeCheckA t sender => dispatchTimeCheck w t sender
  | .playerPlayA => handlePlayerPlay w
  | .playerPauseA => handlePlayerPause w
  | .playerSeekA t => handlePlayerSeek w t
  | .debounceA => fireDebounce w
  | .ackTimeoutA captured => fireAckTimeout captured w
  | .checkReadyA ty t => fireCheckReady ty t w
  | .softResetA => fireSoftReset w
  | .hardReleaseA => fireHardRelease w
  | .connectA => onConnect w

/-!
Voice arbitration.  Two generations of the receive path live in the
repository: the Pusher walkie-talkie handler `handleAudioReceived` in
src/src/app/room/[roomId]/page.tsx (lines 88-117), and the Socket.io
`voice-note` handler with its `handleAudioEnded` callback in
src/unnamed/part_007 (lines 563-589 and 601-607).
-/

/-- The video volume the Pusher room page ducks to (`DUCK_VOLUME`,
page.tsx line 13). -/
def DUCK_VOLUME : ℚ := 1/5

/-- State of the Pusher room page relevant to the walkie-talkie receive
path: the video volume, the sync engine's playing flag (owned by
`useSyncLogic` and never written by the audio handler), and the hidden
talkie element's volume. -/
structure RoomState where
  volume : ℚ
  videoPlaying : Bool
  talkieVolume : ℚ
deriving DecidableEq

/-- `handleAudioReceived` (page.tsx lines 88-117): duck the video volume to
`DUCK_VOLUME`, play the payload at maximum volume, and capture the previous
volume for the `onended`/`onerror` callbacks.  Returns the new state and
the captured `prevVolume`. -/
def handleAudioReceived (s : RoomState) : RoomState × ℚ :=
  ({ s with volume := DUCK_VOLUME, talkieVolume := 1 }, s.volume)

/-- The `onended` callback installed by `handleAudioReceived` (page.tsx
lines 102-106): restore the captured previous volume. -/
def talkieEnded (s : RoomState) (prevVolume : ℚ) : RoomState :=
  { s with volume := prevVolume }

/-- `VideoState` of the Socket.io room page (part_007). -/
structure SocketVideoState where
  playing : Bool
  timestamp : ℚ
  url : String
deriving DecidableEq

/-- State of the Socket.io room page relevant to the `voice-note` receive
path: the shared video state, the `isVoiceInterruption` ref, and the page's
video volume (never written by the voice-note path). -/
structure SocketRoom where
  videoState : SocketVideoState
  isVoiceInterruption : Bool
  volume : ℚ
deriving DecidableEq

/-- The `voice-note` handler (part_007 lines 563-571, receiver side): set
the voice-interruption flag and force `playing := false`; the payload is
then played at volume 1.0 on the dedicated audio element. -/
def onVoiceNote (s : SocketRoom) : SocketRoom :=
  { s with
      isVoiceInterruption := true,
      videoState := { s.videoState with playing := false } }

/-- `handleAudioEnded` (part_007 lines 601-607): when the interruption flag
is set, clear it and resume `playing := true`. -/
def handleAudioEnded (s : SocketRoom) : SocketRoom :=
  if s.isVoiceInterruption then
    { s with
        isVoiceInterruption := false,
        videoState := { s.videoState with playing := true } }
  else s

/-!
Concrete peers used to evaluate the model on closed inputs.
-/

/-- Identity of the first peer. -/
def userA : String := "A"

/-- Identity of the second peer. -/
def userB : String := "B"

/-- A second video URL used in concrete scenarios. -/
def urlV2 : String := "v2"

/-- The empty URL. -/
def noUrl : String := ""

/-- A freshly joined peer A: idle, lock free, player attached and fully
buffered at time 10. -/
def baseWorld : World :=
  { syncState := .idle, url := "", isPlaying := false, syncLock := false,
    isRemoteAction := false, pendingSync := none, debounce := none,
    myUserId := some userA, attached := true,
    player := { playing := false, currentTime := 10, playbackRate := 1, readyState := 4 } }

/-- Convenience: length of an optional value seen as a list is at most one. -/
theorem option_toList_length_le_one {α : Type} (o : Option α) : o.toList.length ≤ 1 := by
  cases o <;> simp [Option.toList]

/-!
C1 — ack-timeout fallback for a play request.
-/

/-- Peer A in the quiescent initial state, paused playhead at 10. -/
def wIdleC1 : World := baseWorld

/-- C1: a play request from the idle state arms the 3000 ms ack timeout
with the stale captured session state `idle`; when no ack arrives and the
timeout fires, its guard (`captured = requesting ∨ captured = waiting-ack`)
fails, so `executePlay` never runs: play commits zero times — `isPlaying`
stays false, the session stays in `requesting` and the lock stays held. -/
theorem c1_ack_timeout_never_commits_play :
    (requestPlay wIdleC1).sent = [Msg.syncRequest .play 10 (some userA)]
    ∧ (requestPlay wIdleC1).armed = [Timer.ackTimeout .idle 3000]
    ∧ fireAckTimeout .idle (requestPlay wIdleC1).world
        = ⟨(requestPlay wIdleC1).world, [], []⟩
    ∧ (fireAckTimeout .idle (requestPlay wIdleC1).world).world.isPlaying = false
    ∧ (fireAckTimeout .idle (requestPlay wIdleC1).world).world.syncState = .requesting
    ∧ (fireAckTimeout .idle (requestPlay wIdleC1).world).world.syncLock = true := by
  decide

/-!
C4 — URL change.
-/

/-- Peer A in the middle of a play handshake (lock held), playhead at 42. -/
def wLockedC4 : World :=
  { baseWorld with
      syncState := .requesting, syncLock := true,
      player := { playing := false, currentTime := 42, playbackRate := 1, readyState := 4 } }

/-- C4 counterexample: a URL change during an in-flight handshake does not
release the sync lock and does not reset the playhead to 0, contrary to the
claimed unconditional lock release and time reset. -/
theorem c4_counterexample :
    wLockedC4.syncLock = true
    ∧ (handleUrlChange wLockedC4 urlV2).world.syncLock = true
    ∧ (handleUrlChange wLockedC4 urlV2).world.player.currentTime = 42 := by
  decide

/-- C4 (amended): a local URL change broadcasts `url{newUrl}`, sets
playing to false and the session to `idle`, and receiving `url` applies
the same reset without re-broadcasting; but neither path touches the sync
lock or the playhead. -/
theorem c4_url_change (w : World) (u : String) :
    (handleUrlChange w u).world.url = u
    ∧ (handleUrlChange w u).world.isPlaying = false
    ∧ (handleUrlChange w u).world.syncState = .idle
    ∧ (handleUrlChange w u).sent = [Msg.urlMsg u]
    ∧ (handleUrlChange w u).world.syncLock = w.syncLock
    ∧ (handleUrlChange w u).world.player = w.player
    ∧ (onUrl w u).world.url = u
    ∧ (onUrl w u).world.isPlaying = false
    ∧ (onUrl w u).world.syncState = .idle
    ∧ (onUrl w u).sent = []
    ∧ (onUrl w u).world.syncLock = w.syncLock
    ∧ (onUrl w u).world.player = w.player := by
  simp [handleUrlChange, onUrl]

/-!
C5 — remote-echo guard.
-/

/-- C5: while the remote-echo flag is set, a locally observed play, pause
or seek event emits no protocol message, arms no debounced intent, and
only consumes the one-shot flag. -/
theorem c5_remote_echo_guard (w : World) (t : ℚ) (h : w.isRemoteAction = true) :
    handlePlayerPlay w = ⟨{ w with isRemoteAction := false }, [], []⟩
    ∧ handlePlayerPause w = ⟨{ w with isRemoteAction := false }, [], []⟩
    ∧ handlePlayerSeek w t = ⟨{ w with isRemoteAction := false }, [], []⟩ := by
  simp [handlePlayerPlay, handlePlayerPause, handlePlayerSeek, h]

/-- Peer A just after applying a remote command. -/
def wEchoC5 : World := { baseWorld with isRemoteAction := true }

/-- C5 witness: the guard fires on a concrete world. -/
theorem c5_remote_echo_guard_witness :
    handlePlayerPlay wEchoC5 = ⟨{ wEchoC5 with isRemoteAction := false }, [], []⟩
    ∧ handlePlayerPause wEchoC5 = ⟨{ wEchoC5 with isRemoteAction := false }, [], []⟩
    ∧ handlePlayerSeek wEchoC5 5 = ⟨{ wEchoC5 with isRemoteAction := false }, [], []⟩ :=
  c5_remote_echo_guard wEchoC5 5 (by decide)

/-!
C6 — handler guards against duplicate / out-of-order delivery.
-/

/-- Peer A resting in `paused` with no handshake pending. -/
def wStaleC6 : World := { baseWorld with syncState := .paused }

/-- C6 counterexample: a stale `sync-go` arriving with no handshake
pending is not dropped — it unconditionally commits play and changes the
session state. -/
theorem c6_counterexample :
    wStaleC6.pendingSync = none
    ∧ wStaleC6.syncState = .paused
    ∧ (onSyncGo wStaleC6 5).world.syncState = .playing
    ∧ (onSyncGo wStaleC6 5).world.isPlaying = true := by
  decide

/-- C6 (amended): the handlers that carry an identity field self-filter,
`sync-request` is dropped while the lock is held, `sync-ack` is dropped
when no handshake is pending, and `state-response` is dropped when not
addressed to this peer — all without state change; but `sync-go` has no
guard at all and unconditionally commits play in every state. -/
theorem c6_handler_guards (w : World) (ty : ReqType) (t : ℚ) (u : String) (ip : Bool)
    (a b rid tid : Option String) :
    (a = w.myUserId → onSyncRequest w ty t a = ⟨w, [], []⟩)
    ∧ (w.syncLock = true → onSyncRequest w ty t a = ⟨w, [], []⟩)
    ∧ (b = w.myUserId → onSyncAck w t b = ⟨w, [], []⟩)
    ∧ (w.pendingSync = none → onSyncAck w t b = ⟨w, [], []⟩)
    ∧ (rid = w.myUserId → onStateRequest w rid = ⟨w, [], []⟩)
    ∧ (tid ≠ w.myUserId → onStateResponse w u ip t rid tid = ⟨w, [], []⟩)
    ∧ (b = w.myUserId → dispatchTimeCheck w t b = ⟨w, [], []⟩)
    ∧ ((onSyncGo w t).world.syncState = .playing ∧ (onSyncGo w t).world.isPlaying = true) := by
  refine ⟨?_, ?_, ?_, ?_, ?_, ?_, ?_, ?_⟩
  · intro h; simp [onSyncRequest, h]
  · intro h; simp [onSyncRequest, h]
  · intro h; simp [onSyncAck, h]
  · intro h; simp [onSyncAck, h]
  · intro h; simp [onStateRequest, h]
  · intro h; simp [onStateResponse, h]
  · intro h; simp [dispatchTimeCheck, onTimeCheck, h]
  · simp [onSyncGo, executePlay]

/-- C6 witness: the guards fire on a concrete world. -/
theorem c6_handler_guards_witness :
    onSyncAck wStaleC6 5 (some userB) = ⟨wStaleC6, [], []⟩
    ∧ onSyncRequest wStaleC6 .play 5 (some userA) = ⟨wStaleC6, [], []⟩ :=
  ⟨(c6_handler_guards wStaleC6 .play 5 noUrl false (some userA) (some userB) none none).2.2.2.1 (by decide),
   (c6_handler_guards wStaleC6 .play 5 noUrl false (some userA) (some userB) none none).1 (by decide)⟩

/-!
C8 — voice payload reception.
-/

/-- The Pusher room page playing a video at full volume when a voice
payload arrives. -/
def sDuckC8 : RoomState := { volume := 1, videoPlaying := true, talkieVolume := 1 }

/-- C8 counterexample: the walkie-talkie receive path of the Pusher page
ducks the volume but leaves the video playing — no pause is forced. -/
theorem c8_counterexample :
    sDuckC8.videoPlaying = true
    ∧ (handleAudioReceived sDuckC8).1.videoPlaying = true := by
  decide

/-- C8 (amended): the Pusher walkie-talkie path ducks the video volume to
`DUCK_VOLUME` and restores the previous volume when the payload ends,
without touching the playing state; the Socket.io voice-note path pauses
the video on receipt and resumes play when the payload ends, without
touching the volume. -/
theorem c8_voice_paths (s : RoomState) (r : SocketRoom) :
    (handleAudioReceived s).1.volume = DUCK_VOLUME
    ∧ (handleAudioReceived s).1.talkieVolume = 1
    ∧ (handleAudioReceived s).1.videoPlaying = s.videoPlaying
    ∧ (handleAudioReceived s).2 = s.volume
    ∧ (talkieEnded (handleAudioReceived s).1 (handleAudioReceived s).2).volume = s.volume
    ∧ (onVoiceNote r).videoState.playing = false
    ∧ (onVoiceNote r).isVoiceInterruption = true
    ∧ (onVoiceNote r).volume = r.volume
    ∧ (handleAudioEnded (onVoiceNote r)).videoState.playing = true
    ∧ (handleAudioEnded (onVoiceNote r)).isVoiceInterruption = false
    ∧ (handleAudioEnded (onVoiceNote r)).volume = r.volume := by
  simp [handleAudioReceived, talkieEnded, onVoiceNote, handleAudioEnded]

/-!
C10 — state-response ignores the sync lock.
-/

/-- C10: even with the sync lock held and a handshake in flight, an
inbound `state-response` addressed to this peer still overwrites the url
(when truthy and different), `isPlaying` and the session state, and the
lock stays held throughout. -/
theorem c10_state_response_ignores_lock (w : World) (u : String) (ip : Bool) (t : ℚ)
    (rid tid : Option String) (hl : w.syncLock = true) (ht : tid = w.myUserId) :
    (onStateResponse w u ip t rid tid).world.syncLock = true
    ∧ (onStateResponse w u ip t rid tid).world.isPlaying = ip
    ∧ (onStateResponse w u ip t rid tid).world.syncState
        = (if ip then .playing else .paused)
    ∧ (u ≠ "" ∧ u ≠ w.url → (onStateResponse w u ip t rid tid).world.url = u) := by
  refine ⟨?_, ?_, ?_, fun hu => ?_⟩ <;>
    simp only [onStateResponse, ht, ne_eq, not_true_eq_false, if_false, seekTo] <;>
    (split_ifs <;> simp_all)

/-!
C7 — late-joiner bootstrap.
-/

/-- C7: a connecting peer broadcasts `state-request`; a receiving peer
that is not the requester answers with the full
`state-response{url, isPlaying, time, responderId, targetId}`; the
requester drops responses not addressed to it, adopts the url only if it
is truthy and different, seeks only if the reported time is positive,
adopts the responder's playing flag and enters `playing`/`paused` — all
without sending anything, arming anything, touching the lock or installing
a pending handshake target. -/
theorem c7_bootstrap (w : World) (rid tid : Option String) (u : String) (ip : Bool)
    (t : ℚ) (hreq : ¬ rid = w.myUserId) (htid : tid = w.myUserId) :
    (onConnect w).sent = [Msg.stateRequest w.myUserId]
    ∧ (onConnect w).world = w
    ∧ onStateRequest w rid
        = ⟨w, [Msg.stateResponse w.url w.isPlaying (getCurrentTime w) w.myUserId rid], []⟩
    ∧ (∀ tid2 : Option String, tid2 ≠ w.myUserId →
        onStateResponse w u ip t rid tid2 = ⟨w, [], []⟩)
    ∧ (onStateResponse w u ip t rid tid).sent = []
    ∧ (onStateResponse w u ip t rid tid).armed = []
    ∧ (onStateResponse w u ip t rid tid).world.syncLock = w.syncLock
    ∧ (onStateResponse w u ip t rid tid).world.pendingSync = w.pendingSync
    ∧ (onStateResponse w u ip t rid tid).world.isPlaying = ip
    ∧ (onStateResponse w u ip t rid tid).world.syncState
        = (if ip then .playing else .paused)
    ∧ ((onStateResponse w u ip t rid tid).world.url ≠ w.url → (u ≠ "" ∧ u ≠ w.url))
    ∧ (u ≠ "" ∧ u ≠ w.url → (onStateResponse w u ip t rid tid).world.url = u)
    ∧ ((onStateResponse w u ip t rid tid).world.player.currentTime
          ≠ w.player.currentTime → 0 < t)
    ∧ (0 < t → w.attached = true →
        (onStateResponse w u ip t rid tid).world.player.currentTime = t) := by
  refine ⟨rfl, rfl, ?_, ?_, ?_, ?_, ?_, ?_, ?_, ?_, ?_, ?_, ?_, ?_⟩
  · simp [onStateRequest, hreq]
  · intro tid2 h2
    simp [onStateResponse, h2]
  · simp only [onStateResponse, htid, ne_eq, not_true_eq_false, if_false, seekTo]
  · simp only [onStateResponse, htid, ne_eq, not_true_eq_false, if_false, seekTo]
  · simp only [onStateResponse, htid, ne_eq, not_true_eq_false, if_false, seekTo]
    split_ifs <;> simp_all
  · simp only [onStateResponse, htid, ne_eq, not_true_eq_false, if_false, seekTo]
    split_ifs <;> simp_all
  · simp only [onStateResponse, htid, ne_eq, not_true_eq_false, if_false, seekTo]
  · simp only [onStateResponse, htid, ne_eq, not_true_eq_false, if_false, seekTo]
  · intro h2
    by_cases hc : u ≠ "" ∧ u ≠ w.url
    · exact hc
    · exfalso
      apply h2
      simp only [onStateResponse, htid, ne_eq, not_true_eq_false, if_false, seekTo]
      split_ifs <;> simp_all
  · intro hc
    simp only [onStateResponse, htid, ne_eq, not_true_eq_false, if_false, seekTo]
    split_ifs <;> simp_all
  · intro h2
    by_cases hc : 0 < t
    · exact hc
    · exfalso
      apply h2
      simp only [onStateResponse, htid, ne_eq, not_true_eq_false, if_false, seekTo]
      split_ifs <;> simp_all
  · intro h2 h3
    simp only [onStateResponse, htid, ne_eq, not_true_eq_false, if_false, seekTo]
    split_ifs <;> simp_all

/-- A late joiner B with an empty url and no player activity yet. -/
def wJoinerC7 : World :=
  { baseWorld with
      myUserId := some userB,
      player := { playing := false, currentTime := 0, playbackRate := 1, readyState := 4 } }

/-- C7 witness: a concrete bootstrap exchange between A (responder,
playing at 10) and B (joiner). -/
theorem c7_bootstrap_witness :
    onStateRequest baseWorld (some userB)
      = ⟨baseWorld,
          [Msg.stateResponse baseWorld.url baseWorld.isPlaying 10 (some userA) (some userB)],
          []⟩
    ∧ (onStateResponse wJoinerC7 urlV2 true 10 (some userA) (some userB)).world.isPlaying
        = true
    ∧ (onStateResponse wJoinerC7 urlV2 true 10 (some userA) (some userB)).world.url = urlV2
    ∧ (onStateResponse wJoinerC7 urlV2 true 10 (some userA) (some userB)).world.player.currentTime
        = 10 :=
  ⟨(c7_bootstrap baseWorld (some userB) (some userA) urlV2 true 10
      (by decide) (by decide)).2.2.1,
   (c7_bootstrap wJoinerC7 (some userA) (some userB) urlV2 true 10
      (by decide) (by decide)).2.2.2.2.2.2.2.2.1,
   (c7_bootstrap wJoinerC7 (some userA) (some userB) urlV2 true 10
      (by decide) (by decide)).2.2.2.2.2.2.2.2.2.2.2.1 (by decide),
   (c7_bootstrap wJoinerC7 (some userA) (some userB) urlV2 true 10
      (by decide) (by decide)).2.2.2.2.2.2.2.2.2.2.2.2.2 (by decide) (by decide)⟩

/-!
C2 — seek-only handshake.
-/

/-- Initiator A paused at 5. -/
def wInitC2 : World :=
  { baseWorld with
      syncState := .paused,
      player := { playing := false, currentTime := 5, playbackRate := 1, readyState := 4 } }

/-- Responder B paused at 7. -/
def wRespC2 : World :=
  { baseWorld with
      myUserId := some userB, syncState := .paused,
      player := { playing := false, currentTime := 7, playbackRate := 1, readyState := 4 } }

/-- C2 counterexample: in a full seek-only handshake the responder does
commit the paused position and release its lock, but the initiator's
`onSyncAck` then broadcasts `sync-go` and commits play, and the
responder's unguarded `onSyncGo` commits play as well: the seek-only
handshake ends with both peers playing, not paused. -/
theorem c2_counterexample :
    (fireCheckReady .seek 42 (onSyncRequest wRespC2 .seek 42 (some userA)).world).world.syncState
      = SyncState.paused
    ∧ (onSyncAck (requestSeek wInitC2 42).world 42 (some userB)).sent = [Msg.syncGo 42]
    ∧ (onSyncAck (requestSeek wInitC2 42).world 42 (some userB)).world.isPlaying = true
    ∧ (onSyncAck (requestSeek wInitC2 42).world 42 (some userB)).world.syncState
      = SyncState.playing
    ∧ (onSyncGo (fireCheckReady .seek 42
        (onSyncRequest wRespC2 .seek 42 (some userA)).world).world 42).world.isPlaying = true
    ∧ (onSyncGo (fireCheckReady .seek 42
        (onSyncRequest wRespC2 .seek 42 (some userA)).world).world 42).world.syncState
      = SyncState.playing := by
  decide

/-- C2 (amended): on a `sync-request{seek}` the responder pauses, seeks to
the requested time, acks once when ready, commits the paused position and
releases its lock without waiting for `sync-go`; however the initiator, on
receiving the ack with a pending sync, broadcasts `sync-go` and commits
play, and `onSyncGo` commits play on any receiver — so a seek-only
handshake does end with play committed on both peers. -/
theorem c2_seek_handshake (w : World) (t : ℚ) (ini : Option String)
    (h1 : ¬ ini = w.myUserId) (h2 : w.syncLock = false) (h3 : w.attached = true)
    (h4 : HAVE_FUTURE_DATA ≤ w.player.readyState) :
    (onSyncRequest w .seek t ini).world.player.playing = false
    ∧ (onSyncRequest w .seek t ini).world.player.currentTime = t
    ∧ (onSyncRequest w .seek t ini).world.syncLock = true
    ∧ (onSyncRequest w .seek t ini).world.syncState = .syncing
    ∧ (onSyncRequest w .seek t ini).sent = []
    ∧ (onSyncRequest w .seek t ini).armed = [Timer.checkReady .seek t 100]
    ∧ (fireCheckReady .seek t (onSyncRequest w .seek t ini).world).sent
        = [Msg.syncAck t w.myUserId]
    ∧ (fireCheckReady .seek t (onSyncRequest w .seek t ini).world).world.syncState = .paused
    ∧ (fireCheckReady .seek t (onSyncRequest w .seek t ini).world).world.syncLock = false
    ∧ (fireCheckReady .seek t (onSyncRequest w .seek t ini).world).world.isPlaying
        = w.isPlaying
    ∧ (∀ (wi : World) (ta : ℚ) (resp : Option String) (p : Pending),
        wi.pendingSync = some p → ¬ resp = wi.myUserId →
        (onSyncAck wi ta resp).sent = [Msg.syncGo p.time]
        ∧ (onSyncAck wi ta resp).world.isPlaying = true
        ∧ (onSyncAck wi ta resp).world.syncState = .playing)
    ∧ (∀ (wg : World) (tg : ℚ),
        (onSyncGo wg tg).world.isPlaying = true
        ∧ (onSyncGo wg tg).world.syncState = .playing) := by
  refine ⟨?_, ?_, ?_, ?_, ?_, ?_, ?_, ?_, ?_, ?_, ?_, ?_⟩
  · simp [onSyncRequest, seekTo, h1, h2, h3]
  · simp [onSyncRequest, seekTo, h1, h2, h3]
  · simp [onSyncRequest, seekTo, h1, h2, h3]
  · simp [onSyncRequest, seekTo, h1, h2, h3]
  · simp [onSyncRequest, seekTo, h1, h2, h3]
  · simp [onSyncRequest, seekTo, h1, h2, h3]
  · have h5 : 3 ≤ w.player.readyState := h4
    simp [fireCheckReady, onSyncRequest, isPlayerReady, HAVE_FUTURE_DATA, seekTo,
      h1, h2, h3, h5]
  · have h5 : 3 ≤ w.player.readyState := h4
    simp [fireCheckReady, onSyncRequest, isPlayerReady, HAVE_FUTURE_DATA, seekTo,
      h1, h2, h3, h5]
  · have h5 : 3 ≤ w.player.readyState := h4
    simp [fireCheckReady, onSyncRequest, isPlayerReady, HAVE_FUTURE_DATA, seekTo,
      h1, h2, h3, h5]
  · have h5 : 3 ≤ w.player.readyState := h4
    simp [fireCheckReady, onSyncRequest, isPlayerReady, HAVE_FUTURE_DATA, seekTo,
      h1, h2, h3, h5]
  · intro wi ta resp p hp hresp
    refine ⟨?_, ?_, ?_⟩ <;> simp [onSyncAck, executePlay, hp, hresp]
  · intro wg tg
    exact ⟨by simp [onSyncGo, executePlay], by simp [onSyncGo, executePlay]⟩

/-- The initiator A right after issuing the seek request for time 42. -/
def wPendC2 : World := (requestSeek wInitC2 42).world

/-- C2 witness: the amended behaviour on the concrete handshake. -/
theorem c2_seek_handshake_witness :
    (fireCheckReady .seek 42 (onSyncRequest wRespC2 .seek 42 (some userA)).world).world.syncState
      = SyncState.paused
    ∧ (onSyncAck wPendC2 42 (some userB)).world.isPlaying = true :=
  ⟨(c2_seek_handshake wRespC2 42 (some userA)
      (by decide) (by decide) (by decide) (by decide)).2.2.2.2.2.2.2.1,
   ((c2_seek_handshake wRespC2 42 (some userA)
      (by decide) (by decide) (by decide) (by decide)).2.2.2.2.2.2.2.2.2.2.1
      wPendC2 42 (some userB) ⟨42, userA⟩ (by decide) (by decide)).2.1⟩

/-!
C3 — drift-correction policy.
-/

/-- Peer A playing at local time 0, lock free, rate 1. -/
def wDriftC3 : World :=
  { baseWorld with
      syncState := .playing, isPlaying := true,
      player := { playing := true, currentTime := 0, playbackRate := 1, readyState := 4 } }

/-- C3 counterexample: at drift exactly 0.3 s the handler takes no action
at all — the playback rate stays 1.0 and nothing is armed — although the
claim places 0.3 inside the inclusive soft band. -/
theorem c3_counterexample :
    wDriftC3.player.playbackRate = 1
    ∧ dispatchTimeCheck wDriftC3 (3/10) (some userB) = ⟨wDriftC3, [], []⟩ := by
  refine ⟨by decide, ?_⟩
  norm_num [dispatchTimeCheck, onTimeCheck, MICRO_DRIFT_THRESHOLD, HARD_SYNC_THRESHOLD,
    getCurrentTime, seekTo, wDriftC3, baseWorld,
    show ((some userB : Option String) = some userA) = False from eq_false (by decide),
    show (userB = userA) = False from eq_false (by decide),
    show |(3:ℚ)/10| = 3/10 from by norm_num]

/-- C3 (amended): the time-check handler acts only in state `playing` with
the lock free; `|Δ| ≤ 0.3` (boundary included) does nothing; for
`0.3 < |Δ| ≤ 1.5` it sets rate 1.05 when the remote is ahead and 0.95 when
behind and arms the 1500 ms reset; for `|Δ| > 1.5` it takes the lock, sets
the remote-echo flag, seeks once to the remote time and arms the 500 ms
release; the release timer only clears the lock, and the reset timer
restores rate 1.0. -/
theorem c3_drift_policy (w : World) (t : ℚ) (sdr : Option String) :
    (w.syncState ≠ .playing → dispatchTimeCheck w t sdr = ⟨w, [], []⟩)
    ∧ (w.syncLock = true → dispatchTimeCheck w t sdr = ⟨w, [], []⟩)
    ∧ (sdr = w.myUserId → dispatchTimeCheck w t sdr = ⟨w, [], []⟩)
    ∧ (|t - getCurrentTime w| ≤ MICRO_DRIFT_THRESHOLD →
        dispatchTimeCheck w t sdr = ⟨w, [], []⟩)
    ∧ (w.syncState = .playing → w.syncLock = false → ¬ sdr = w.myUserId →
        MICRO_DRIFT_THRESHOLD < |t - getCurrentTime w| →
        |t - getCurrentTime w| ≤ SOFT_SYNC_THRESHOLD → w.attached = true →
        (dispatchTimeCheck w t sdr).world.player.playbackRate
          = (if getCurrentTime w < t then 21/20 else 19/20)
        ∧ (dispatchTimeCheck w t sdr).world.player.currentTime = w.player.currentTime
        ∧ (dispatchTimeCheck w t sdr).world.syncLock = false
        ∧ (dispatchTimeCheck w t sdr).sent = []
        ∧ (dispatchTimeCheck w t sdr).armed = [Timer.softReset 1500])
    ∧ (w.syncState = .playing → w.syncLock = false → ¬ sdr = w.myUserId →
        SOFT_SYNC_THRESHOLD < |t - getCurrentTime w| →
        (dispatchTimeCheck w t sdr).world.syncLock = true
        ∧ (dispatchTimeCheck w t sdr).world.isRemoteAction = true
        ∧ (w.attached = true → (dispatchTimeCheck w t sdr).world.player.currentTime = t)
        ∧ (dispatchTimeCheck w t sdr).world.syncState = w.syncState
        ∧ (dispatchTimeCheck w t sdr).sent = []
        ∧ (dispatchTimeCheck w t sdr).armed = [Timer.hardRelease 500])
    ∧ ((fireHardRelease w).world.syncLock = false
        ∧ (fireHardRelease w).world.player = w.player
        ∧ (fireHardRelease w).world.syncState = w.syncState
        ∧ (fireHardRelease w).sent = [] ∧ (fireHardRelease w).armed = [])
    ∧ (w.attached = true → (fireSoftReset w).world.player.playbackRate = 1) := by
  refine ⟨?_, ?_, ?_, ?_, ?_, ?_, ?_, ?_⟩
  · intro h
    simp [dispatchTimeCheck, h]
  · intro h
    simp only [dispatchTimeCheck, onTimeCheck, h]
    split_ifs <;> rfl
  · intro h
    simp only [dispatchTimeCheck, onTimeCheck, h]
    split_ifs <;> rfl
  · intro h
    have hhs : ¬ HARD_SYNC_THRESHOLD < |t - getCurrentTime w| := by
      simp only [MICRO_DRIFT_THRESHOLD, HARD_SYNC_THRESHOLD] at h ⊢
      intro hc
      linarith
    have hns : ¬ MICRO_DRIFT_THRESHOLD < |t - getCurrentTime w| := not_lt.mpr h
    simp only [dispatchTimeCheck, onTimeCheck]
    split_ifs <;> simp_all
  · intro hs hl hsd hmic hsoft hatt
    have hhs : ¬ HARD_SYNC_THRESHOLD < |t - getCurrentTime w| := by
      simp only [SOFT_SYNC_THRESHOLD, HARD_SYNC_THRESHOLD] at hsoft ⊢
      intro hc
      linarith
    have hnm : ¬ |t - getCurrentTime w| < MICRO_DRIFT_THRESHOLD := not_lt.mpr hmic.le
    refine ⟨?_, ?_, ?_, ?_, ?_⟩ <;>
      simp [dispatchTimeCheck, onTimeCheck, seekTo, hs, hl, hsd, hmic, hhs, hnm, hatt]
  · intro hs hl hsd hhard
    have hhh : HARD_SYNC_THRESHOLD < |t - getCurrentTime w| := hhard
    have hmic : MICRO_DRIFT_THRESHOLD < |t - getCurrentTime w| := by
      simp only [MICRO_DRIFT_THRESHOLD, HARD_SYNC_THRESHOLD] at hhh ⊢
      linarith
    have hnm : ¬ |t - getCurrentTime w| < MICRO_DRIFT_THRESHOLD := not_lt.mpr hmic.le
    refine ⟨?_, ?_, fun ha => ?_, ?_, ?_, ?_⟩ <;>
      simp [dispatchTimeCheck, onTimeCheck, seekTo, hs, hl, hsd, hhh, hnm]
    all_goals split_ifs <;> simp_all
  · exact ⟨by simp [fireHardRelease], by simp [fireHardRelease],
      by simp [fireHardRelease], rfl, rfl⟩
  · intro h
    simp [fireSoftReset, h]

/-- C3 witness: the hard band at the claim's drift of 2.0 s — one seek to
the remote time, lock taken, released by the settle timer. -/
theorem c3_drift_policy_witness :
    (dispatchTimeCheck wDriftC3 2 (some userB)).world.syncLock = true
    ∧ (dispatchTimeCheck wDriftC3 2 (some userB)).world.player.currentTime = 2
    ∧ (dispatchTimeCheck wDriftC3 2 (some userB)).armed = [Timer.hardRelease 500]
    ∧ (fireHardRelease (dispatchTimeCheck wDriftC3 2 (some userB)).world).world.syncLock
        = false :=
  ⟨((c3_drift_policy wDriftC3 2 (some userB)).2.2.2.2.2.1 rfl rfl (by decide)
      (by norm_num [SOFT_SYNC_THRESHOLD, getCurrentTime, wDriftC3, baseWorld])).1,
   ((c3_drift_policy wDriftC3 2 (some userB)).2.2.2.2.2.1 rfl rfl (by decide)
      (by norm_num [SOFT_SYNC_THRESHOLD, getCurrentTime, wDriftC3, baseWorld])).2.2.1 rfl,
   ((c3_drift_policy wDriftC3 2 (some userB)).2.2.2.2.2.1 rfl rfl (by decide)
      (by norm_num [SOFT_SYNC_THRESHOLD, getCurrentTime, wDriftC3, baseWorld])).2.2.2.2.2,
   ((c3_drift_policy (dispatchTimeCheck wDriftC3 2 (some userB)).world 0 none).2.2.2.2.2.2.1).1⟩

/-!
C9 — lock discipline.
-/

/-- C9: across every atomic turn of the engine, a held sync lock is only
ever released by a committing step — one whose resulting session state is
terminal (`playing` for `executePlay`-based commits, `paused` for the
seek-commit) — or by the hard-sync settle timer; and the pending target is
always at most one. -/
theorem c9_lock_held_until_commit (a : Act) (w : World)
    (h1 : w.syncLock = true) (h2 : (run a w).world.syncLock = false) :
    ((run a w).world.syncState = .playing ∨ (run a w).world.syncState = .paused
      ∨ a = .hardReleaseA)
    ∧ (run a w).world.pendingSync.toList.length ≤ 1 := by
  refine ⟨?_, option_toList_length_le_one _⟩
  cases a
  case requestPlayA => simp [run, requestPlay, h1] at h2
  case requestPauseA =>
    simp only [run, requestPause] at h2 ⊢
    split_ifs at h2 <;> simp_all
  case requestSeekA t =>
    simp only [run, requestSeek] at h2 ⊢
    split_ifs at h2 <;> simp_all
  case handleUrlChangeA u => simp [run, handleUrlChange, h1] at h2
  case onSyncRequestA ty t ini =>
    simp only [run, onSyncRequest, seekTo] at h2 ⊢
    split_ifs at h2 <;> simp_all
  case onSyncAckA t resp =>
    simp only [run, onSyncAck] at h2 ⊢
    split_ifs at h2 ⊢ <;> cases hp : w.pendingSync <;> simp_all [executePlay]
  case onSyncGoA t => simp [run, onSyncGo, executePlay]
  case onPauseA t => simp [run, onPause, h1] at h2
  case onUrlA u => simp [run, onUrl, h1] at h2
  case onStateRequestA rid =>
    simp only [run, onStateRequest] at h2
    split_ifs at h2 <;> simp_all
  case onStateResponseA u ip t rid tid =>
    simp only [run, onStateResponse, seekTo] at h2
    split_ifs at h2 <;> simp_all
  case timeCheckA t sender =>
    simp only [run, dispatchTimeCheck, onTimeCheck, seekTo] at h2
    split_ifs at h2 <;> simp_all
  case playerPlayA =>
    simp only [run, handlePlayerPlay] at h2
    split_ifs at h2 <;> simp_all
  case playerPauseA =>
    simp only [run, handlePlayerPause] at h2
    split_ifs at h2 <;> simp_all
  case playerSeekA t =>
    simp only [run, handlePlayerSeek] at h2
    split_ifs at h2 <;> simp_all
  case debounceA =>
    simp only [run, fireDebounce] at h2 ⊢
    cases hd : w.debounce with
    | none => simp_all
    | some d =>
      cases d with
      | playA => simp_all [requestPlay]
      | pauseA =>
        simp_all [requestPause]
        split_ifs at h2
      | seekA t2 => simp_all [requestSeek]
  case ackTimeoutA captured =>
    simp only [run, fireAckTimeout] at h2 ⊢
    split_ifs at h2 ⊢ <;> simp_all [executePlay]
  case checkReadyA ty t =>
    simp only [run, fireCheckReady] at h2 ⊢
    split_ifs at h2 ⊢ <;> simp_all
  case softResetA => simp [run, fireSoftReset, h1] at h2
  case hardReleaseA => simp [run, fireHardRelease]
  case connectA => simp [run, onConnect, h1] at h2

/-- Peer A holding the lock in `waiting-ack` when the `sync-go` arrives. -/
def wLockedC9 : World :=
  { baseWorld with syncState := .waitingAck, syncLock := true }

/-- C9 witness: a concrete committing release — `sync-go` while locked. -/
theorem c9_lock_held_until_commit_witness :
    ((run (Act.onSyncGoA 5) wLockedC9).world.syncState = .playing
      ∨ (run (Act.onSyncGoA 5) wLockedC9).world.syncState = .paused
      ∨ Act.onSyncGoA 5 = .hardReleaseA)
    ∧ (run (Act.onSyncGoA 5) wLockedC9).world.pendingSync.toList.length ≤ 1 :=
  c9_lock_held_until_commit (Act.onSyncGoA 5) wLockedC9 (by decide) (by decide)


/-- Peer A mid-handshake: lock held, waiting in `requesting`. -/
def wLockedC10 : World :=
  { baseWorld with
      syncState := .requesting, syncLock := true,
      pendingSync := some ⟨10, userA⟩ }

/-- C10 witness: a concrete mid-handshake peer is clobbered by a late
bootstrap response. -/
theorem c10_state_response_ignores_lock_witness :
    (onStateResponse wLockedC10 urlV2 true 99 (some userB) (some userA)).world.syncLock = true
    ∧ (onStateResponse wLockedC10 urlV2 true 99 (some userB) (some userA)).world.url = urlV2 :=
  ⟨(c10_state_response_ignores_lock wLockedC10 urlV2 true 99 (some userB) (some userA)
      (by decide) (by decide)).1,
   (c10_state_response_ignores_lock wLockedC10 urlV2 true 99 (some userB) (some userA)
      (by decide) (by decide)).2.2.2 (by decide)⟩

end CineSync
